import Mathlib

/-!
# Verification of the ChopChop video-splitter job engine

Shallow embedding of `src/app/main.py` (FastAPI video splitter).  Python
floats are modelled as `ℚ` (the arithmetic the planner performs — division,
`max`, `math.ceil`, `int` truncation — is exact rational arithmetic on the
inputs considered), Python ints as `ℤ`, `None`-able values as `Option`.
External effects (the `ffprobe` and `ffmpeg` subprocesses, the directory
listing) enter as explicit oracle arguments recording what the external
world returned.
-/

namespace ChopChop

/-- One record of the in-memory `jobs` dict (`main.py` lines 94 and 208):
keys `status`, `message`, `total_parts`, `completed_parts`, `zip`. -/
structure JobRecord where
  status : String
  message : String
  total_parts : Option ℤ
  completed_parts : Option ℤ
  zip : Option String
deriving DecidableEq, Repr

/-- Result of `ffprobe_info` (`main.py` lines 43-65): duration in seconds,
size in bytes, bit rate in bits per second. -/
structure ProbeResult where
  duration : Option ℚ
  size : ℤ
  bit_rate : Option ℤ
deriving DecidableEq, Repr

/-- Outcome of one run of the external `ffprobe` process, as consumed by
`ffprobe_info`: the exit code, the three fields of the JSON `format`
object (already parsed; `none` when the field is absent — a present field
is a nonempty string in ffprobe's output, hence truthy in the Python
conditionals `float(duration) if duration else None` etc.), and the file
size reported by `path.stat()`. -/
structure FfprobeRun where
  rc : ℤ
  fmt_duration : Option ℚ
  fmt_size : Option ℤ
  fmt_bit_rate : Option ℤ
  stat_size : ℤ
deriving DecidableEq, Repr

/-- Embedding of `ffprobe_info` (`main.py` lines 43-65): on non-zero exit
fall back to `{"duration": None, "size": path.stat().st_size,
"bit_rate": None}`; otherwise return the parsed fields, the size falling
back to the filesystem size when the tool reported none. -/
def ffprobe_info (r : FfprobeRun) : ProbeResult :=
  if r.rc ≠ 0 then
    { duration := none, size := r.stat_size, bit_rate := none }
  else
    { duration := r.fmt_duration
      size := r.fmt_size.getD r.stat_size
      bit_rate := r.fmt_bit_rate }

/-- Index of the last occurrence of character `c` in the list, when any
(Python `str.rfind`). -/
def rlastIdx (c : Char) : List Char → Option ℕ
  | [] => none
  | x :: xs =>
    match rlastIdx c xs with
    | some i => some (i + 1)
    | none => if x = c then some 0 else none

/-- Last path component of a string path: everything after the last `/`
(CPython `pathlib.PurePath.name` for the plain component-style filenames
the upload endpoint receives). -/
def pathName (s : String) : String :=
  match rlastIdx '/' s.toList with
  | some i => String.mk (s.toList.drop (i + 1))
  | none => s

/-- Parent of a string path: everything before the last `/`
(CPython `pathlib.PurePath.parent`; `.` when there is no separator). -/
def pathParent (s : String) : String :=
  match rlastIdx '/' s.toList with
  | some i => String.mk (s.toList.take i)
  | none => "."

/-- CPython `pathlib.PurePath.suffix` of a filename: with `name` the last
component and `i` the index of its last dot, the suffix is the substring
from `i` on when `0 < i < len(name) - 1`, else the empty string. -/
def pySuffix (s : String) : String :=
  let name := (pathName s).toList
  match rlastIdx '.' name with
  | some i => if 0 < i ∧ i < name.length - 1 then String.mk (name.drop i) else ""
  | none => ""

/-- `main.py` line 109: `output_ext = Path(params["original_filename"]).suffix
or ".mp4"` — an empty suffix is falsy, so it defaults to `.mp4`. -/
def outputExt (filename : String) : String :=
  let s := pySuffix filename
  if s = "" then ".mp4" else s

/-- The ffmpeg output filename pattern built by `create_segments_by_duration`
(`main.py` line 74): `output_dir / f"part_%03d{output_ext}"`. -/
def out_pattern (output_dir : String) (ext : String) : String :=
  output_dir ++ "/part_%03d" ++ ext

/-- One entry of a directory listing (`Path.iterdir()`): its filename and
whether it is a regular file (`Path.is_file()`). -/
structure DirEntry where
  name : String
  isFile : Bool
deriving DecidableEq, Repr

instance : DecidableRel (fun a b : DirEntry => a.name ≤ b.name) :=
  fun a b => inferInstanceAs (Decidable (a.name ≤ b.name))

instance : IsTotal DirEntry (fun a b => a.name ≤ b.name) :=
  ⟨fun a b => le_total a.name b.name⟩

instance : IsTrans DirEntry (fun a b => a.name ≤ b.name) :=
  ⟨fun _ _ _ h h' => le_trans h h'⟩

/-- Python `sorted()` over the paths of one directory: all paths share the
parent, so the lexicographic order on the path strings is the lexicographic
order on the entry names. -/
def sortEntries (l : List DirEntry) : List DirEntry :=
  l.insertionSort (fun a b => a.name ≤ b.name)

/-- Embedding of `package_zip` (`main.py` lines 86-91): iterate the output
directory in sorted order and add each regular file to the archive under
its own filename.  The value is the list of archive member names in the
order they are added. -/
def package_zip (entries : List DirEntry) : List String :=
  ((sortEntries entries).filter (fun e => e.isFile)).map (fun e => e.name)

/-- Splitting mode, the `mode` form field after its validation in `upload`
(`main.py` lines 174-175): either `"count"` or `"size"`. -/
inductive Mode where
  | count
  | size
deriving DecidableEq, Repr

/-- The `params` dict handed to `process_job` (`main.py` lines 197-202). -/
structure Params where
  mode : Mode
  count : Option ℤ
  size_mb : Option ℚ
  original_filename : String
deriving DecidableEq, Repr

/-- Outcome of one run of the external `ffmpeg` segmentation process
(`run_cmd`): its exit code and its standard-error text split into lines
(Python `err.splitlines()`; the empty list is exactly the empty — falsy —
string). -/
structure SegRun where
  rc : ℤ
  err_lines : List String
deriving DecidableEq, Repr

/-- Everything `process_job` does that the rest of the system can observe:
the final registry record for the job, the segment length and extension
passed to `create_segments_by_duration` when it was invoked, the planned
part count written at planning time (`total_parts` of the progress update,
before the post-run recount), and whether the output directory was
enumerated and packaged into the archive. -/
structure RunResult where
  record : JobRecord
  seg_invoked : Option ℚ
  seg_ext : Option String
  planned_parts : Option ℤ
  enumerated : Bool
  packaged : Bool
deriving DecidableEq, Repr

/-- Python `int()` applied to a float: truncation toward zero. -/
def pyInt (x : ℚ) : ℤ :=
  if 0 ≤ x then ⌊x⌋ else ⌈x⌉

/-- Progress message of count mode (`main.py` line 116).  The Python code
renders `seg_seconds` with two decimals (`f"...{seg_seconds:.2f}s..."`);
the numeric rendering is abstracted by `toString`, which no claim
inspects. -/
def countMsg (count : ℤ) (seg_seconds : ℚ) : String :=
  "splitting into " ++ toString count ++ " parts (~" ++ toString seg_seconds ++ "s each)"

/-- Progress message of size mode (`main.py` line 142), numeric rendering
abstracted as in `countMsg`. -/
def sizeMsg (estimated_parts : ℤ) (seg_seconds : ℚ) : String :=
  "splitting approx " ++ toString estimated_parts ++ " parts (~" ++ toString seg_seconds ++ "s each)"

/-- Error message built on a non-zero ffmpeg exit (`main.py` lines 119 and
145): `f"ffmpeg failed: {err.splitlines()[-1] if err else 'unknown'}"`. -/
def ffmpegFailMsg (err_lines : List String) : String :=
  "ffmpeg failed: " ++ (err_lines.getLast?.getD "unknown")

/-- Message of the Python `TypeError` raised by `int(None)` / `float(None)`
when the mode's parameter is absent; the exact CPython wording is
irrelevant to every claim and is abstracted by this constant.  (The
`upload` endpoint rejects such submissions before a job exists, so the
branch is unreachable through the HTTP API.) -/
def typeErrorMsg : String := "TypeError"

/-- The record written by `process_job` on entry (`main.py` line 94). -/
def processingInit : JobRecord :=
  { status := "processing", message := "starting", total_parts := none,
    completed_parts := some 0, zip := none }

/-- Tail of a successful `process_job` run (`main.py` lines 148-155):
recount the regular files of the output directory in sorted order, update
`completed_parts` and `total_parts` to the actual count, package the zip
and mark the job finished. -/
def finishTail (r : JobRecord) (seg_seconds : ℚ) (ext : String) (planned : Option ℤ)
    (out_entries : List DirEntry) (job_dir job_id : String) : RunResult :=
  let produced := (sortEntries out_entries).filter (fun e => e.isFile)
  let n : ℤ := produced.length
  let r2 : JobRecord := { r with completed_parts := some n, total_parts := some n }
  let zip_path := job_dir ++ "/" ++ job_id ++ ".zip"
  { record := { r2 with status := "finished", message := "done", zip := some zip_path }
    seg_invoked := some seg_seconds
    seg_ext := some ext
    planned_parts := planned
    enumerated := true
    packaged := true }

/-- Embedding of `process_job` (`main.py` lines 93-160).  `info` is the
probe result, `seg` what the ffmpeg invocation would return, `out_entries`
the listing of the output directory after segmentation.  Returns the
observable outcome of the run (see `RunResult`); the raised `ValueError`s
are the ones caught by the enclosing `except` and recorded via `str(e)`. -/
def process_job (p : Params) (info : ProbeResult) (seg : SegRun)
    (out_entries : List DirEntry) (job_dir job_id : String) : RunResult :=
  let fail (msg : String) : RunResult :=
    { record := { processingInit with status := "error", message := msg }
      seg_invoked := none, seg_ext := none, planned_parts := none
      enumerated := false, packaged := false }
  match info.duration with
  | none => fail "Could not determine video duration."
  | some duration =>
    if duration ≤ 0 then fail "Could not determine video duration."
    else
      let output_ext := outputExt p.original_filename
      match p.mode with
      | Mode.count =>
        match p.count with
        | none => fail typeErrorMsg
        | some count =>
          if count ≤ 0 then fail "count must be positive"
          else
            let seg_seconds : ℚ := duration / count
            let r1 : JobRecord :=
              { processingInit with message := countMsg count seg_seconds,
                                    total_parts := some count }
            if seg.rc ≠ 0 then
              { record := { r1 with status := "error", message := ffmpegFailMsg seg.err_lines }
                seg_invoked := some seg_seconds, seg_ext := some output_ext
                planned_parts := some count, enumerated := false, packaged := false }
            else
              finishTail r1 seg_seconds output_ext (some count) out_entries job_dir job_id
      | Mode.size =>
        match p.size_mb with
        | none => fail typeErrorMsg
        | some size_mb =>
          if size_mb ≤ 0 then fail "size_mb must be positive"
          else
            let target_bytes : ℤ := pyInt (size_mb * 1024 * 1024)
            let bytes_per_sec : ℚ :=
              match info.bit_rate with
              | some b => if b = 0 then (info.size : ℚ) / duration else (b : ℚ) / 8
              | none => (info.size : ℚ) / duration
            if bytes_per_sec ≤ 0 then
              fail "Could not determine bytes-per-second for size estimation."
            else
              let seg_seconds : ℚ := max 1 ((target_bytes : ℚ) / bytes_per_sec)
              let estimated_parts : ℤ := ⌈duration / seg_seconds⌉
              let r1 : JobRecord :=
                { processingInit with message := sizeMsg estimated_parts seg_seconds,
                                      total_parts := some estimated_parts }
              if seg.rc ≠ 0 then
                { record := { r1 with status := "error", message := ffmpegFailMsg seg.err_lines }
                  seg_invoked := some seg_seconds, seg_ext := some output_ext
                  planned_parts := some estimated_parts, enumerated := false, packaged := false }
              else
                finishTail r1 seg_seconds output_ext (some estimated_parts)
                  out_entries job_dir job_id

instance missingOrNonPosIntDec (count : Option ℤ) :
    Decidable (count.elim True (fun c => c ≤ 0)) :=
  match count with
  | none => isTrue trivial
  | some c => inferInstanceAs (Decidable (c ≤ 0))

instance missingOrNonPosRatDec (size_mb : Option ℚ) :
    Decidable (size_mb.elim True (fun s => s ≤ 0)) :=
  match size_mb with
  | none => isTrue trivial
  | some s => inferInstanceAs (Decidable (s ≤ 0))

/-- Validation prefix of the `upload` endpoint (`main.py` lines 174-181),
run synchronously before any job is created: `some msg` is the 400
response's error text, `none` means the submission is accepted.  `mode` is
the raw form string; `count` and `size_mb` the optional form fields.  The
Python test `count is None or count <= 0` is `count.elim True (c ≤ 0)`,
and likewise for `size_mb`. -/
def upload_validation (mode : String) (count : Option ℤ) (size_mb : Option ℚ) :
    Option String :=
  if mode ≠ "count" ∧ mode ≠ "size" then
    some "mode must be 'count' or 'size'"
  else if mode = "count" ∧ (count.elim True (fun c => c ≤ 0)) then
    some "count must be provided and > 0 for mode 'count'."
  else if mode = "size" ∧ (size_mb.elim True (fun s => s ≤ 0)) then
    some "size_mb must be provided and > 0 for mode 'size'."
  else
    none

/-- A partial update of a job record, as performed by the Python
`jobs[job_id].update({...})` calls: each field is `some v` when the update
dict carries that key. -/
structure Patch where
  status : Option String
  message : Option String
  total_parts : Option (Option ℤ)
  completed_parts : Option (Option ℤ)
  zip : Option (Option String)
deriving DecidableEq, Repr

/-- `dict.update`: keys present in the patch overwrite, the rest stay. -/
def JobRecord.applyPatch (r : JobRecord) (p : Patch) : JobRecord :=
  { status := p.status.getD r.status
    message := p.message.getD r.message
    total_parts := p.total_parts.getD r.total_parts
    completed_parts := p.completed_parts.getD r.completed_parts
    zip := p.zip.getD r.zip }

/-- One write to a single job's registry slot: either a whole-record
assignment `jobs[job_id] = {...}` or an in-place
`jobs[job_id].update({...})`. -/
inductive Event where
  | set (r : JobRecord)
  | upd (p : Patch)
deriving DecidableEq, Repr

/-- Effect of one write on the job's registry slot (`none` = key absent;
an `update` on an absent key would raise `KeyError` in Python and is
modelled as leaving the slot absent — unreachable in the traces
considered, whose first event is a `set`). -/
def applyEvent : Option JobRecord → Event → Option JobRecord
  | _, Event.set r => some r
  | some r, Event.upd p => some (r.applyPatch p)
  | none, Event.upd _ => none

/-- Replay a write trace over a job's registry slot. -/
def applyEvents (s : Option JobRecord) (t : List Event) : Option JobRecord :=
  t.foldl applyEvent s

/-- All ways to insert a single event into an event sequence: the
schedules a two-thread execution can produce when one thread performs
exactly one write and the other the given sequence. -/
def insertions {α : Type} (x : α) : List α → List (List α)
  | [] => [[x]]
  | y :: ys => (x :: y :: ys) :: (insertions x ys).map (fun t => y :: t)

/-- The record written by the `upload` handler at `main.py` line 208 —
after the worker thread has already been started at line 205. -/
def queuedRecord : JobRecord :=
  { status := "queued", message := "queued", total_parts := none,
    completed_parts := some 0, zip := none }

/-- The update `process_job` performs when the probe yields no usable
duration (`main.py` line 101). -/
def durationErrPatch : Patch :=
  { status := some "error", message := some "Could not determine video duration.",
    total_parts := none, completed_parts := none, zip := none }

/-- Registry writes of a `process_job` run whose probe reports no usable
duration: the entry record of line 94 followed by the error update of
line 101 (after which the function returns, writing nothing further). -/
def runnerDurationErrorEvents : List Event :=
  [Event.set processingInit, Event.upd durationErrPatch]

/-- The registry write the `upload` handler performs after it starts the
worker thread: the single `queued` assignment of line 208.  Because
`threading.Thread(...).start()` at line 205 precedes this write, the
write can land at any position relative to the runner's writes:
the schedules the code permits are `insertions queuedWrite runnerEvents`. -/
def queuedWrite : Event :=
  Event.set queuedRecord

/-- The schedule in which the runner completes (through its terminal
`error` write) before the upload handler performs its `queued` write — a
schedule the code permits, since the thread is started first. -/
def lateQueuedTrace : List Event :=
  runnerDurationErrorEvents ++ [queuedWrite]

/-- Shared server state seen by the HTTP endpoints: the `jobs` dict (an
association list keyed by job id; uuid keys are unique) and the set of
existing file paths. -/
structure ServerState where
  jobs : List (String × JobRecord)
  files : List String
deriving DecidableEq, Repr

/-- Response of `GET /status/{job_id}` (`main.py` lines 211-216). -/
inductive StatusResp where
  | unknownJob
  | ok (r : JobRecord)
deriving DecidableEq, Repr

/-- Embedding of the `status` endpoint: a read-only registry lookup. -/
def status (st : ServerState) (job_id : String) : StatusResp :=
  match st.jobs.lookup job_id with
  | none => StatusResp.unknownJob
  | some j => StatusResp.ok j

/-- Response of `GET /download/{job_id}` (`main.py` lines 218-240):
404 for an unknown job, 400 when the job is not finished, 404 when the
recorded zip path does not exist, a `TypeError` (500) when a finished
record carries no zip path (`Path(None)`), else the streamed file. -/
inductive DownloadResp where
  | unknownJob
  | notFinished
  | zipNotFound
  | typeError
  | stream (zip_path : String)
deriving DecidableEq, Repr

/-- `pre` is an initial segment of `s` (character lists). -/
def startsWithCh : List Char → List Char → Bool
  | [], _ => true
  | _ :: _, [] => false
  | a :: pre, b :: s => a = b && startsWithCh pre s

/-- `p` lies inside directory `dir` (or is `dir` itself): what
`shutil.rmtree(dir)` removes. -/
def isUnder (dir p : String) : Prop :=
  p = dir ∨ startsWithCh (dir ++ "/").toList p.toList = true

instance (dir p : String) : Decidable (isUnder dir p) :=
  inferInstanceAs (Decidable (_ ∨ _))

/-- The `cleanup` closure scheduled by `download` (`main.py` lines
230-237): remove the job folder (`zip_path.parent`) recursively and pop
the registry entry.  Modelled as succeeding; on an OS error Python would
swallow the exception. -/
def cleanup (st : ServerState) (job_id : String) (zip_path : String) : ServerState :=
  { jobs := st.jobs.filter (fun kv => kv.1 ≠ job_id)
    files := st.files.filter (fun q => ¬ isUnder (pathParent zip_path) q) }

/-- Embedding of the `download` endpoint: the response together with the
server state after the scheduled cleanup (when one was scheduled) has
run. -/
def download (st : ServerState) (job_id : String) : DownloadResp × ServerState :=
  match st.jobs.lookup job_id with
  | none => (DownloadResp.unknownJob, st)
  | some job =>
    if job.status ≠ "finished" then (DownloadResp.notFinished, st)
    else
      match job.zip with
      | none => (DownloadResp.typeError, st)
      | some zp =>
        if zp ∈ st.files then (DownloadResp.stream zp, cleanup st job_id zp)
        else (DownloadResp.zipNotFound, st)

/-- The size-mode plan as the (amended) claim states it, as a function of
the desired size `m` (MB), the probed duration `D`, size `S` and bit rate
`br`: target bytes are the integer truncation `⌊m * 1024 * 1024⌋`;
bytes-per-second is `b / 8` for a known nonzero bit rate and `S / D`
otherwise (a zero reported bit rate is falsy in the code's `if bit_rate:`
test, hence treated as unknown); `none` means the job fails, otherwise
the pair is `(segmentSeconds, estimatedParts)` with
`segmentSeconds = max 1 (targetBytes / bytesPerSecond)` and
`estimatedParts = ⌈D / segmentSeconds⌉`. -/
def claimSizePlan (m D : ℚ) (S : ℤ) (br : Option ℤ) : Option (ℚ × ℤ) :=
  let tb : ℤ := ⌊m * 1024 * 1024⌋
  let bps : ℚ :=
    match br with
    | some b => if b = 0 then (S : ℚ) / D else (b : ℚ) / 8
    | none => (S : ℚ) / D
  if bps ≤ 0 then none
  else
    let segs := max 1 ((tb : ℚ) / bps)
    some (segs, ⌈D / segs⌉)

/-! ## Supporting lemmas -/

theorem lookup_filter_ne (l : List (String × JobRecord)) (k : String) :
    (l.filter (fun kv => kv.1 ≠ k)).lookup k = none := by
  induction l with
  | nil => rfl
  | cons kv l ih =>
    rw [List.filter_cons]
    by_cases h : kv.1 = k
    · have hb : (decide (kv.1 ≠ k)) = false := by simp [h]
      rw [hb]
      simpa using ih
    · have hb : (decide (kv.1 ≠ k)) = true := by simp [h]
      rw [hb]
      have hk : (k == kv.1) = false := beq_eq_false_iff_ne.mpr (Ne.symm h)
      simp only [if_true, List.lookup, hk]
      exact ih

theorem lookup_filter_ne_bang (l : List (String × JobRecord)) (k : String) :
    (l.filter (fun kv => !decide (kv.1 = k))).lookup k = none := by
  have h := lookup_filter_ne l k
  simpa [decide_not] using h

theorem mem_package_zip {l : List DirEntry} {n : String} :
    n ∈ package_zip l ↔ ∃ e ∈ l, e.isFile = true ∧ e.name = n := by
  simp only [package_zip, List.mem_map, List.mem_filter, sortEntries,
    List.mem_insertionSort]
  constructor
  · rintro ⟨e, ⟨he, hf⟩, hn⟩
    exact ⟨e, he, hf, hn⟩
  · rintro ⟨e, he, hf, hn⟩
    exact ⟨e, ⟨he, hf⟩, hn⟩

theorem sorted_package_zip (l : List DirEntry) :
    List.Sorted (· ≤ ·) (package_zip l) := by
  have hs : List.Pairwise (fun a b : DirEntry => a.name ≤ b.name) (sortEntries l) :=
    List.sorted_insertionSort _ l
  have hf : List.Pairwise (fun a b : DirEntry => a.name ≤ b.name)
      ((sortEntries l).filter (fun e => e.isFile)) :=
    List.Pairwise.sublist (List.filter_sublist _) hs
  exact hf.map _ (fun _ _ hab => hab)

theorem perm_package_zip {l₁ l₂ : List DirEntry} (h : l₁.Perm l₂) :
    (package_zip l₁).Perm (package_zip l₂) := by
  unfold package_zip sortEntries
  exact (((List.perm_insertionSort _ l₁).trans
    (h.trans (List.perm_insertionSort _ l₂).symm)).filter _).map _

/-! ## Claims -/

/-- C1: the claim asserts the `queued` record is written before any update
by the job's Runner, so terminal states are never overwritten.  The code
starts the worker thread (`main.py` line 205) *before* writing the
`queued` record (line 208), so the schedule in which the runner reaches
its terminal `error` write first is permitted — and the handler's
subsequent `queued` write then changes the terminal record.  This theorem
exhibits that schedule: it is among the permitted insertions, the runner's
own writes end in status `error`, and replaying the full schedule leaves
the record at status `queued`. -/
theorem c1_queued_overwrites_terminal :
    lateQueuedTrace ∈ insertions queuedWrite runnerDurationErrorEvents ∧
    (applyEvents none runnerDurationErrorEvents).map JobRecord.status = some "error" ∧
    applyEvents none lateQueuedTrace = some queuedRecord ∧
    queuedRecord.status = "queued" := by
  decide

/-- C5: the Media Prober returns only the filesystem size (duration and
bit rate null) when the probe tool exits non-zero, and on success returns
the parsed duration and bit rate with the size falling back to the
filesystem size when the tool reports none. -/
theorem c5_prober (r : FfprobeRun) :
    (r.rc ≠ 0 →
      ffprobe_info r = { duration := none, size := r.stat_size, bit_rate := none }) ∧
    (r.rc = 0 →
      (ffprobe_info r).duration = r.fmt_duration ∧
      (ffprobe_info r).bit_rate = r.fmt_bit_rate ∧
      (∀ s, r.fmt_size = some s → (ffprobe_info r).size = s) ∧
      (r.fmt_size = none → (ffprobe_info r).size = r.stat_size)) := by
  constructor
  · intro h
    simp [ffprobe_info, h]
  · intro h
    refine ⟨by simp [ffprobe_info, h], by simp [ffprobe_info, h], ?_, ?_⟩
    · intro s hs
      simp [ffprobe_info, h, hs]
    · intro hs
      simp [ffprobe_info, h, hs]

/-- Witness for `c5_prober`: a probe run that exits with code 1 and
reports a 42-byte file falls back to a size-only result. -/
theorem c5_prober_witness :
    ffprobe_info ⟨1, some 7, some 9, some 11, 42⟩ =
      { duration := none, size := 42, bit_rate := none } :=
  (c5_prober ⟨1, some 7, some 9, some 11, 42⟩).1 (by decide)

/-- C8: the Artifact Packager archives exactly the regular files of the
output directory (directories and non-regular entries excluded), in
lexicographic order by filename, and two runs over identical directory
contents (any two listings that are permutations of one another) produce
identical member orderings. -/
theorem c8_package_zip (l₁ l₂ : List DirEntry) (h : l₁.Perm l₂) :
    (∀ n, n ∈ package_zip l₁ ↔ ∃ e ∈ l₁, e.isFile = true ∧ e.name = n) ∧
    List.Sorted (· ≤ ·) (package_zip l₁) ∧
    package_zip l₁ = package_zip l₂ :=
  ⟨fun _ => mem_package_zip, sorted_package_zip l₁,
    List.eq_of_perm_of_sorted (perm_package_zip h)
      (sorted_package_zip l₁) (sorted_package_zip l₂)⟩

/-- Witness for `c8_package_zip`: two listing orders of a directory with
two regular files and one subdirectory give the same sorted members. -/
theorem c8_package_zip_witness :
    package_zip [⟨"part_001.mp4", true⟩, ⟨"part_000.mp4", true⟩, ⟨"sub", false⟩] =
      package_zip [⟨"sub", false⟩, ⟨"part_000.mp4", true⟩, ⟨"part_001.mp4", true⟩] :=
  (c8_package_zip
    [⟨"part_001.mp4", true⟩, ⟨"part_000.mp4", true⟩, ⟨"sub", false⟩]
    [⟨"sub", false⟩, ⟨"part_000.mp4", true⟩, ⟨"part_001.mp4", true⟩]
    (by decide)).2.2

/-- C2, counterexample: the claim asserts `targetBytes = m * 1024 * 1024`
and `segmentSeconds = max 1 (targetBytes / bytesPerSecond)` for every
desired size `m > 0` MB.  The code truncates: `int(size_mb * 1024 * 1024)`
(`main.py` line 126).  At `m = 3/10` MB with known bit rate `8` bits/s
(so bytesPerSecond = 1) and duration `100`, the executor receives
`314572` seconds, while the claim's formula demands
`max 1 ((3/10) * 1024 * 1024 / 1) = 1572864/5 = 314572.8`. -/
theorem c2_size_mode_counterexample :
    (process_job ⟨Mode.size, none, some (3/10), "v.mp4"⟩ ⟨some 100, 1000000, some 8⟩
        ⟨0, []⟩ [] "/up/j" "j").seg_invoked = some 314572 ∧
    max 1 (((3:ℚ)/10 * 1024 * 1024) / ((8:ℚ)/8)) = 1572864/5 ∧
    ((314572 : ℚ)) ≠ 1572864/5 := by
  refine ⟨?_, by norm_num [max_eq_right], by norm_num⟩
  norm_num [process_job, finishTail, pyInt]

/-- C2, amended: for every size-mode job with `m > 0` and probed duration
`D > 0`, the job's observable plan is exactly `claimSizePlan`: target
bytes are the integer truncation `⌊m*1024*1024⌋`, bytes-per-second is
`b/8` for a known nonzero bit rate and `S/D` otherwise, a non-positive
bytes-per-second fails the job, else
`segmentSeconds = max 1 (targetBytes / bytesPerSecond)` (at least 1) and
`estimatedParts = ⌈D / segmentSeconds⌉`. -/
theorem c2_size_mode_amended (p : Params) (info : ProbeResult) (seg : SegRun)
    (out : List DirEntry) (jd jid : String) (m D : ℚ)
    (hm : p.mode = Mode.size) (hs : p.size_mb = some m) (hm0 : 0 < m)
    (hd : info.duration = some D) (hD : 0 < D) :
    match claimSizePlan m D info.size info.bit_rate with
    | none =>
        (process_job p info seg out jd jid).record.status = "error" ∧
        (process_job p info seg out jd jid).seg_invoked = none
    | some se =>
        (process_job p info seg out jd jid).seg_invoked = some se.1 ∧
        (process_job p info seg out jd jid).planned_parts = some se.2 ∧
        1 ≤ se.1 := by
  have hpy : pyInt (m * 1024 * 1024) = ⌊m * 1024 * 1024⌋ := by
    unfold pyInt
    rw [if_pos (by positivity)]
  cases hbr : info.bit_rate with
  | none =>
    by_cases hbps : (info.size : ℚ) / D ≤ 0
    · simp [claimSizePlan, process_job, hd, hm, hs, not_le.mpr hm0, not_le.mpr hD, hbr, hbps]
    · by_cases hrc : seg.rc = 0 <;>
        simp [claimSizePlan, process_job, hd, hm, hs, not_le.mpr hm0, not_le.mpr hD, hbr,
          hbps, hpy, finishTail, hrc, le_max_left]
  | some b =>
    by_cases hb0 : b = 0
    · subst hb0
      by_cases hbps : (info.size : ℚ) / D ≤ 0
      · simp [claimSizePlan, process_job, hd, hm, hs, not_le.mpr hm0, not_le.mpr hD, hbr, hbps]
      · by_cases hrc : seg.rc = 0 <;>
          simp [claimSizePlan, process_job, hd, hm, hs, not_le.mpr hm0, not_le.mpr hD, hbr,
            hbps, hpy, finishTail, hrc, le_max_left]
    · by_cases hbps : (b : ℚ) / 8 ≤ 0
      · simp [claimSizePlan, process_job, hd, hm, hs, not_le.mpr hm0, not_le.mpr hD, hbr,
          hb0, hbps]
      · by_cases hrc : seg.rc = 0 <;>
          simp [claimSizePlan, process_job, hd, hm, hs, not_le.mpr hm0, not_le.mpr hD, hbr,
            hb0, hbps, hpy, finishTail, hrc, le_max_left]

/-- Witness for `c2_size_mode_amended`: the spec's fallback example —
unknown bit rate, size 100 MB, duration 100 s, target 10 MB — plans
segments of exactly 10 seconds, 10 estimated parts. -/
theorem c2_size_mode_amended_witness :
    (process_job ⟨Mode.size, none, some 10, "v.mp4"⟩ ⟨some 100, 104857600, none⟩
        ⟨0, []⟩ [] "/up/j" "j").seg_invoked = some 10 ∧
    (process_job ⟨Mode.size, none, some 10, "v.mp4"⟩ ⟨some 100, 104857600, none⟩
        ⟨0, []⟩ [] "/up/j" "j").planned_parts = some 10 := by
  have h := c2_size_mode_amended ⟨Mode.size, none, some 10, "v.mp4"⟩
    ⟨some 100, 104857600, none⟩ ⟨0, []⟩ [] "/up/j" "j" 10 100
    rfl rfl (by norm_num) rfl (by norm_num)
  have hplan : claimSizePlan 10 100 104857600 none = some (10, 10) := by
    norm_num [claimSizePlan]
  rw [hplan] at h
  exact ⟨h.1, h.2.1⟩

/-- C3: for every count-mode job with positive desired count `n` and
probed duration `D > 0`, the plan is `segmentSeconds = D / n` passed to
the executor and `estimatedParts = n`; a non-positive count is rejected —
synchronously by the upload validation with a 400, and inside the runner
by the `ValueError` that lands the job in `error` with message
`count must be positive` before the executor is ever invoked. -/
theorem c3_count_mode (p : Params) (info : ProbeResult) (seg : SegRun)
    (out : List DirEntry) (jd jid : String) (n : ℤ) (D : ℚ)
    (hm : p.mode = Mode.count) (hc : p.count = some n) (hn : 0 < n)
    (hd : info.duration = some D) (hD : 0 < D) :
    (process_job p info seg out jd jid).seg_invoked = some (D / n) ∧
    (process_job p info seg out jd jid).planned_parts = some n ∧
    (∀ c : ℤ, c ≤ 0 → ∀ sz,
      upload_validation "count" (some c) sz =
        some "count must be provided and > 0 for mode 'count'.") ∧
    (∀ (q : Params) (k : ℤ), q.mode = Mode.count → q.count = some k → k ≤ 0 →
      (process_job q info seg out jd jid).record.status = "error" ∧
      (process_job q info seg out jd jid).record.message = "count must be positive" ∧
      (process_job q info seg out jd jid).seg_invoked = none) := by
  refine ⟨?_, ?_, ?_, ?_⟩
  · by_cases hrc : seg.rc = 0 <;>
      simp [process_job, hd, hm, hc, not_le.mpr hD, not_le.mpr hn, finishTail, hrc]
  · by_cases hrc : seg.rc = 0 <;>
      simp [process_job, hd, hm, hc, not_le.mpr hD, not_le.mpr hn, finishTail, hrc]
  · intro c hc0 sz
    simp [upload_validation, hc0]
  · intro q k hm2 hc2 hk0
    refine ⟨?_, ?_, ?_⟩ <;>
      simp [process_job, hd, hm2, hc2, not_le.mpr hD, hk0]

/-- Witness for `c3_count_mode`: the spec's example `D = 120`, `n = 4`
gives 30-second segments and 4 planned parts. -/
theorem c3_count_mode_witness :
    (process_job ⟨Mode.count, some 4, none, "v.mp4"⟩ ⟨some 120, 1000, none⟩
        ⟨0, []⟩ [] "/up/j" "j").seg_invoked = some 30 ∧
    (process_job ⟨Mode.count, some 4, none, "v.mp4"⟩ ⟨some 120, 1000, none⟩
        ⟨0, []⟩ [] "/up/j" "j").planned_parts = some 4 := by
  have h := c3_count_mode ⟨Mode.count, some 4, none, "v.mp4"⟩ ⟨some 120, 1000, none⟩
    ⟨0, []⟩ [] "/up/j" "j" 4 120 rfl rfl (by norm_num) rfl (by norm_num)
  refine ⟨?_, h.2.1⟩
  have h1 := h.1
  norm_num at h1
  exact h1

/-- C4, counterexample: the claim says the segment length passed to the
executor is at least 1.0 second in either mode, but count mode does not
clamp: duration 10 s split into 100 parts passes 0.1-second segments. -/
theorem c4_clamp_counterexample :
    (process_job ⟨Mode.count, some 100, none, "v.mp4"⟩ ⟨some 10, 1000, none⟩
        ⟨0, []⟩ [] "/up/j" "j").seg_invoked = some (1/10) ∧
    ¬ (1 ≤ (1/10 : ℚ)) := by
  refine ⟨?_, by norm_num⟩
  norm_num [process_job, finishTail]

/-- C4, amended: only size-mode segment lengths are clamped to at least
1.0 second; count mode passes `D / n` to the executor unclamped (which
falls below 1.0 whenever `n > D`). -/
theorem c4_clamp_amended (p : Params) (info : ProbeResult) (seg : SegRun)
    (out : List DirEntry) (jd jid : String) :
    (∀ s : ℚ, p.mode = Mode.size →
      (process_job p info seg out jd jid).seg_invoked = some s → 1 ≤ s) ∧
    (∀ (n : ℤ) (D : ℚ), p.mode = Mode.count → p.count = some n → 0 < n →
      info.duration = some D → 0 < D →
      (process_job p info seg out jd jid).seg_invoked = some (D / n)) := by
  constructor
  · intro s hm hrun
    unfold process_job at hrun
    rw [hm] at hrun
    repeat' split at hrun
    all_goals simp_all [finishTail, ← not_lt]
    all_goals repeat' split at hrun
    all_goals try simp_all [not_lt]
    all_goals (rw [← hrun]; exact le_sup_left)
  · intro n D hm hc hn hd hD
    by_cases hrc : seg.rc = 0 <;>
      simp [process_job, hd, hm, hc, not_le.mpr hD, not_le.mpr hn, finishTail, hrc]

/-- Witness for `c4_clamp_amended`: a size-mode job that plans 10-second
segments satisfies the clamp, and a count-mode job with `n > D` gets
`D / n` (here `10 / 100`). -/
theorem c4_clamp_amended_witness :
    (process_job ⟨Mode.size, none, some 10, "v.mp4"⟩ ⟨some 100, 104857600, none⟩
        ⟨0, []⟩ [] "/up/j" "j").seg_invoked = some 10 ∧
    (1 : ℚ) ≤ 10 ∧
    (process_job ⟨Mode.count, some 100, none, "w.mp4"⟩ ⟨some 10, 1000, none⟩
        ⟨0, []⟩ [] "/up/k" "k").seg_invoked = some ((10 : ℚ) / (100 : ℤ)) := by
  have hrun : (process_job ⟨Mode.size, none, some 10, "v.mp4"⟩
      ⟨some 100, 104857600, none⟩ ⟨0, []⟩ [] "/up/j" "j").seg_invoked = some 10 := by
    norm_num [process_job, finishTail, pyInt]
  refine ⟨hrun, ?_, ?_⟩
  · exact (c4_clamp_amended ⟨Mode.size, none, some 10, "v.mp4"⟩
      ⟨some 100, 104857600, none⟩ ⟨0, []⟩ [] "/up/j" "j").1 10 rfl hrun
  · exact (c4_clamp_amended ⟨Mode.count, some 100, none, "w.mp4"⟩
      ⟨some 10, 1000, none⟩ ⟨0, []⟩ [] "/up/k" "k").2 100 10
      rfl rfl (by norm_num) rfl (by norm_num)

/-- C6: a job whose probe yields no duration (or a non-positive one)
transitions to `error` with the message
`Could not determine video duration.`, and no planning, segmentation,
enumeration or packaging step is attempted. -/
theorem c6_duration_error (p : Params) (info : ProbeResult) (seg : SegRun)
    (out : List DirEntry) (jd jid : String)
    (h : info.duration = none ∨ ∃ d, info.duration = some d ∧ d ≤ 0) :
    (process_job p info seg out jd jid).record.status = "error" ∧
    (process_job p info seg out jd jid).record.message =
      "Could not determine video duration." ∧
    (process_job p info seg out jd jid).seg_invoked = none ∧
    (process_job p info seg out jd jid).planned_parts = none ∧
    (process_job p info seg out jd jid).enumerated = false ∧
    (process_job p info seg out jd jid).packaged = false := by
  rcases h with h | ⟨d, hd, hd0⟩
  · simp [process_job, h]
  · simp [process_job, hd, hd0]

/-- Witness for `c6_duration_error`: a probe that reports no duration
sends the job straight to `error`. -/
theorem c6_duration_error_witness :
    (process_job ⟨Mode.count, some 4, none, "v.mp4"⟩ ⟨none, 1000, none⟩
        ⟨0, []⟩ [] "/up/j" "j").record.status = "error" ∧
    (process_job ⟨Mode.count, some 4, none, "v.mp4"⟩ ⟨none, 1000, none⟩
        ⟨0, []⟩ [] "/up/j" "j").record.message =
      "Could not determine video duration." := by
  have h := c6_duration_error ⟨Mode.count, some 4, none, "v.mp4"⟩ ⟨none, 1000, none⟩
    ⟨0, []⟩ [] "/up/j" "j" (Or.inl rfl)
  exact ⟨h.1, h.2.1⟩

/-- C7: `download` succeeds only on a `finished` job (unknown ids get 404,
non-finished jobs an error response), and a successful retrieval removes
the job's storage and registry entry, so every subsequent `status` or
`download` for the same identifier reports the job unknown. -/
theorem c7_retrieve (st : ServerState) (jid : String) :
    (st.jobs.lookup jid = none → download st jid = (DownloadResp.unknownJob, st)) ∧
    (∀ j, st.jobs.lookup jid = some j → j.status ≠ "finished" →
      download st jid = (DownloadResp.notFinished, st)) ∧
    (∀ zp st2, download st jid = (DownloadResp.stream zp, st2) →
      (∃ j, st.jobs.lookup jid = some j ∧ j.status = "finished" ∧ j.zip = some zp) ∧
      st2.jobs.lookup jid = none ∧
      status st2 jid = StatusResp.unknownJob ∧
      (download st2 jid).1 = DownloadResp.unknownJob ∧
      ∀ q ∈ st2.files, ¬ isUnder (pathParent zp) q) := by
  refine ⟨?_, ?_, ?_⟩
  · intro h
    simp [download, h]
  · intro j hj hst
    simp [download, hj, hst]
  · intro zp st2 h
    unfold download at h
    split at h
    · simp at h
    · rename_i j hj
      split at h
      · simp at h
      · rename_i hst
        push_neg at hst
        split at h
        · simp at h
        · rename_i zp2 hz
          split at h
          · rename_i hmem
            simp only [Prod.mk.injEq, DownloadResp.stream.injEq] at h
            obtain ⟨rfl, rfl⟩ := h
            refine ⟨⟨j, hj, hst, hz⟩, ?_, ?_, ?_, ?_⟩
            · exact lookup_filter_ne st.jobs jid
            · simp [status, cleanup, lookup_filter_ne_bang]
            · simp [download, cleanup, lookup_filter_ne_bang]
            · intro q hq
              have hmf := List.mem_filter.mp hq
              simpa using hmf.2
          · simp at h

/-- Witness for `c7_retrieve`: retrieving a finished job streams its zip,
and afterwards the job is unknown to the status endpoint and the job's
directory is gone while unrelated files survive. -/
theorem c7_retrieve_witness :
    download ⟨[("j", ⟨"finished", "done", some 2, some 2, some "/up/j/j.zip"⟩)],
        ["/up/j/j.zip", "/up/j/output/part_000.mp4", "/other/x"]⟩ "j" =
      (DownloadResp.stream "/up/j/j.zip", ⟨[], ["/other/x"]⟩) ∧
    status (⟨[], ["/other/x"]⟩ : ServerState) "j" = StatusResp.unknownJob := by
  have hdl : download ⟨[("j", ⟨"finished", "done", some 2, some 2, some "/up/j/j.zip"⟩)],
      ["/up/j/j.zip", "/up/j/output/part_000.mp4", "/other/x"]⟩ "j" =
      (DownloadResp.stream "/up/j/j.zip", ⟨[], ["/other/x"]⟩) := by decide
  refine ⟨hdl, ?_⟩
  exact ((c7_retrieve ⟨[("j", ⟨"finished", "done", some 2, some 2, some "/up/j/j.zip"⟩)],
    ["/up/j/j.zip", "/up/j/output/part_000.mp4", "/other/x"]⟩ "j").2.2
    "/up/j/j.zip" ⟨[], ["/other/x"]⟩ hdl).2.2.1

/-- C9: whenever the segmentation tool was invoked (in either mode) and
exited non-zero, the job lands in `error`, the message is
`ffmpeg failed: ` followed by the last captured stderr line (or the
placeholder `unknown` when stderr was empty), and neither the output
enumeration nor the packaging step runs. -/
theorem c9_ffmpeg_failure (p : Params) (info : ProbeResult) (seg : SegRun)
    (out : List DirEntry) (jd jid : String) (s : ℚ)
    (hrun : (process_job p info seg out jd jid).seg_invoked = some s)
    (hrc : seg.rc ≠ 0) :
    (process_job p info seg out jd jid).record.status = "error" ∧
    (process_job p info seg out jd jid).record.message =
      "ffmpeg failed: " ++ (seg.err_lines.getLast?.getD "unknown") ∧
    (process_job p info seg out jd jid).enumerated = false ∧
    (process_job p info seg out jd jid).packaged = false := by
  unfold process_job at hrun
  repeat' split at hrun
  all_goals simp_all [process_job, finishTail, ffmpegFailMsg, ← not_lt]
  all_goals repeat' split at hrun
  all_goals simp_all [← not_lt]

/-- Witness for `c9_ffmpeg_failure`: a count-mode run whose ffmpeg exits 1
with last stderr line `boom` errors out with that line in its message. -/
theorem c9_ffmpeg_failure_witness :
    (process_job ⟨Mode.count, some 4, none, "v.mp4"⟩ ⟨some 120, 1000, none⟩
        ⟨1, ["boom"]⟩ [] "/up/j" "j").record.message = "ffmpeg failed: boom" := by
  have hrun : (process_job ⟨Mode.count, some 4, none, "v.mp4"⟩ ⟨some 120, 1000, none⟩
      ⟨1, ["boom"]⟩ [] "/up/j" "j").seg_invoked = some 30 := by
    norm_num [process_job]
  have h := c9_ffmpeg_failure ⟨Mode.count, some 4, none, "v.mp4"⟩ ⟨some 120, 1000, none⟩
    ⟨1, ["boom"]⟩ [] "/up/j" "j" 30 hrun (by norm_num)
  rw [h.2.1]
  rfl

/-- C10: a source filename without a suffix yields segment files with the
default `.mp4` extension, any other filename passes its exact suffix into
the executor's output pattern; and whenever `process_job` invokes the
executor it hands it precisely that derived extension. -/
theorem c10_extension (name d : String) (p : Params) (info : ProbeResult)
    (seg : SegRun) (out : List DirEntry) (jd jid : String) :
    (pySuffix name = "" → out_pattern d (outputExt name) = d ++ "/part_%03d" ++ ".mp4") ∧
    (pySuffix name ≠ "" → out_pattern d (outputExt name) = d ++ "/part_%03d" ++ pySuffix name) ∧
    ((process_job p info seg out jd jid).seg_ext = none ∨
      (process_job p info seg out jd jid).seg_ext = some (outputExt p.original_filename)) := by
  refine ⟨fun h => by simp [out_pattern, outputExt, h],
          fun h => by simp [out_pattern, outputExt, h], ?_⟩
  unfold process_job
  repeat' split
  all_goals try simp [finishTail]
  all_goals repeat' split
  all_goals simp [finishTail]

/-- Witness for `c10_extension`: `movie` has no suffix so segments get
`.mp4`; `clip.mkv` keeps `.mkv`. -/
theorem c10_extension_witness :
    out_pattern "/out" (outputExt "movie") = "/out/part_%03d" ++ ".mp4" ∧
    out_pattern "/out" (outputExt "clip.mkv") = "/out/part_%03d" ++ ".mkv" := by
  constructor
  · exact (c10_extension "movie" "/out" ⟨Mode.count, some 4, none, "movie"⟩
      ⟨none, 0, none⟩ ⟨0, []⟩ [] "/up/j" "j").1 (by decide)
  · have h := (c10_extension "clip.mkv" "/out" ⟨Mode.count, some 4, none, "clip.mkv"⟩
      ⟨none, 0, none⟩ ⟨0, []⟩ [] "/up/j" "j").2.1 (by decide)
    rw [h]
    rfl

end ChopChop
